import Mathlib

/-!
Shallow embedding of `src/server.js` (a small Express personal-finance
ledger). The in-memory database is a JavaScript object mapping a user id
to an account; each route handler validates the request, mutates the
database and responds. We model the database as an insertion-ordered
association list, JavaScript dynamic values for the numeric request
fields as an inductive `JSVal` (including `NaN` and `undefined`), and
each mutating route as a pure function from the request and database to
a result together with the new database. External JavaScript builtins
(md5 hex digest, `parseFloat`, number formatting) are parameters,
gathered in a `JSEnv`.
-/

/-- A JavaScript number: either an actual (ideal, rational) number or
`NaN`. `parseFloat` always yields one of these. -/
inductive JSNum where
  | num (q : ℚ)
  | nan
deriving DecidableEq, Repr

/-- A JavaScript value as it can appear in the `balance` / `amount`
request fields: `undefined` (field absent), a string, a number, or the
number `NaN`. -/
inductive JSVal where
  | undef
  | str (s : String)
  | num (q : ℚ)
  | nan
deriving DecidableEq, Repr

/-- Embed a `parseFloat` result back into the dynamic value world. -/
def JSNum.toVal : JSNum → JSVal
  | .num q => .num q
  | .nan => .nan

/-- JavaScript truthiness of a dynamic value: `undefined`, `NaN`, `0`
and the empty string are falsy, everything else here is truthy. -/
def jsTruthy : JSVal → Bool
  | .undef => false
  | .nan => false
  | .num q => decide (q ≠ 0)
  | .str s => decide (s ≠ "")

/-- `typeof v === 'number'` (in JavaScript, `NaN` is a number). -/
def JSVal.isNumber : JSVal → Bool
  | .num _ => true
  | .nan => true
  | _ => false

/-- The global `isNaN` applied to a dynamic value. `isNaN(undefined)`
is `true` (the numeric coercion of `undefined` is `NaN`). The string
case would require numeric string parsing; at the single call site
(`server.js` line 154) a truthy string has already been replaced by its
`parseFloat` result, and a falsy value short-circuits the `&&` guard,
so the string case is unreachable there and its value is irrelevant. -/
def jsIsNaN : JSVal → Bool
  | .nan => true
  | .undef => true
  | .num _ => false
  | .str _ => false

/-- JavaScript `+` as used in `server.js`: both operands are numbers
(possibly `NaN`) at every use site (`account.balance += transaction.amount`,
line 175), where `+` yields `NaN` unless both operands are non-`NaN`
numbers. (The string-concatenation behavior of `+` never arises for
these operands.) -/
def jsAdd : JSVal → JSVal → JSVal
  | .num a, .num b => .num (a + b)
  | _, _ => .nan

/-- External JavaScript builtins used by the handlers, kept abstract:
`crypto.createHash('md5')....digest('hex')`, the global `parseFloat`,
and number-to-string conversion. -/
structure JSEnv where
  md5hex : String → String
  parseFloat : String → JSNum
  numToStr : ℚ → String

/-- JavaScript string coercion of a dynamic value (used when a value is
concatenated into the hash input or passed to `parseFloat`). -/
def jsToString (env : JSEnv) : JSVal → String
  | .str s => s
  | .num q => env.numToStr q
  | .nan => "NaN"
  | .undef => "undefined"

/-- A stored transaction (`server.js` lines 167-172). `amount` holds the
value after numeric coercion, which is a JavaScript number, possibly
`NaN`. -/
structure Transaction where
  id : String
  date : String
  object : String
  amount : JSVal
deriving DecidableEq, Repr

/-- An account record (`server.js` lines 99-105 and the seed data). -/
structure Account where
  user : String
  currency : String
  description : String
  balance : JSVal
  transactions : List Transaction
deriving DecidableEq, Repr

/-- The database object `db`: a JavaScript object used as a map from
user id to account. Property insertion order is kept, keys are looked
up exactly. -/
abbrev DB := List (String × Account)

/-- `db[k]` : property lookup, `undefined` (here `none`) if absent. -/
def jsGet (db : DB) (k : String) : Option Account :=
  (List.find? (fun e => e.1 == k) db).map (·.2)

/-- `db[k] = a` on a fresh key `k`: appends the property (JavaScript
object insertion order). -/
def jsInsert (db : DB) (k : String) (a : Account) : DB :=
  db ++ [(k, a)]

/-- Mutation of the account object stored under an existing key `k`
(the handlers mutate `account` in place after `db[user]` lookup). -/
def jsSet (db : DB) (k : String) (a : Account) : DB :=
  List.map (fun e => if e.1 == k then (k, a) else e) db

/-- `delete db[k]` (line 131). -/
def jsDelete (db : DB) (k : String) : DB :=
  List.filter (fun e => e.1 != k) db

/-- The seed account stored under key `test` in the built-in seed data
(`server.js` lines 22-32). -/
def seedAccount : Account :=
  { user := "test"
    currency := "$"
    description := "Test account"
    balance := .num 75
    transactions :=
      [ { id := "1", date := "2020-10-01", object := "Pocket money", amount := .num 50 }
      , { id := "2", date := "2020-10-03", object := "Book", amount := .num (-10) }
      , { id := "3", date := "2020-10-04", object := "Sandwich", amount := .num (-5) } ] }

/-- The built-in seed data used when the durable file is missing or
unparsable (`server.js` lines 21-33 and 36-48: the two literals are
identical). -/
def seedDB : DB := [("test", seedAccount)]

/-- Sum of `amount` over a list of transactions, with JavaScript
addition starting from `0` — the quantity the specified balance
invariant compares `balance` against. -/
def sumAmounts (ts : List Transaction) : JSVal :=
  List.foldl (fun s t => jsAdd s t.amount) (.num 0) ts

/-- Body of a `POST /accounts` request. `description = ""` and
`user = ""` / `currency = ""` encode absent (falsy) string fields;
`balance` is a dynamic value (`.undef` when absent). -/
structure CreateReq where
  user : String
  currency : String
  description : String
  balance : JSVal
deriving DecidableEq, Repr

/-- Result of `POST /accounts` (lines 81-109). -/
inductive CreateResult where
  | missingParams            -- 400 Missing parameters
  | conflict                 -- 409 User already exists
  | invalidBalance           -- 400 Balance must be a number
  | created (a : Account)    -- 201, the created account
deriving DecidableEq, Repr

/-- HTTP status of a `POST /accounts` result. -/
def CreateResult.status : CreateResult → Nat
  | .missingParams => 400
  | .conflict => 409
  | .invalidBalance => 400
  | .created _ => 201

/-- Lines 90-97: `let balance = req.body.balance; if (balance && typeof
balance !== 'number') { balance = parseFloat(balance); if (isNaN(balance))
return 400 }`. `.error` is the early `return`. -/
def coerceBalance (env : JSEnv) (b : JSVal) : Except Unit JSVal :=
  if jsTruthy b ∧ ¬ b.isNumber then
    match env.parseFloat (jsToString env b) with
    | .nan => .error ()
    | .num q => .ok (.num q)
  else .ok b

/-- `POST /accounts` (lines 81-109). -/
def createAccount (env : JSEnv) (db : DB) (req : CreateReq) : CreateResult × DB :=
  -- lines 83-85: if (!req.body.user || !req.body.currency) return 400
  if req.user = "" ∨ req.currency = "" then (.missingParams, db)
  -- lines 87-89: if (db[req.body.user]) return 409
  else if (jsGet db req.user).isSome then (.conflict, db)
  else
    match coerceBalance env req.balance with
    | .error _ => (.invalidBalance, db)
    | .ok balance =>
      -- lines 99-105
      let account : Account :=
        { user := req.user
          currency := req.currency
          description := if req.description ≠ "" then req.description
                         else req.user ++ "\x27s budget"
          balance := if jsTruthy balance then balance else .num 0
          transactions := [] }
      (.created account, jsInsert db req.user account)

/-- Body of a `POST /accounts/:user/transactions` request. `date` and
`object` are strings (`""` encodes absent/falsy); `amount` is dynamic. -/
structure TxReq where
  date : String
  object : String
  amount : JSVal
deriving DecidableEq, Repr

/-- Result of `POST /accounts/:user/transactions` (lines 138-178). -/
inductive TxAddResult where
  | notFound                   -- 404 User does not exist
  | missingParams              -- 400 Missing parameters
  | invalidAmount              -- 400 Amount must be a number
  | conflict                   -- 409 Transaction already exists
  | created (t : Transaction)  -- 201, the created transaction
deriving DecidableEq, Repr

/-- HTTP status of a `POST /accounts/:user/transactions` result. -/
def TxAddResult.status : TxAddResult → Nat
  | .notFound => 404
  | .missingParams => 400
  | .invalidAmount => 400
  | .conflict => 409
  | .created _ => 201

/-- Lines 149-152: `let amount = req.body.amount; if (amount && typeof
amount !== 'number') { amount = parseFloat(amount); }`. -/
def coerceAmount (env : JSEnv) (a : JSVal) : JSVal :=
  if jsTruthy a ∧ ¬ a.isNumber then (env.parseFloat (jsToString env a)).toVal
  else a

/-- Lines 158-161: the transaction id is the md5 hex digest of
`req.body.date + req.body.object + req.body.amount` — the raw,
pre-coercion `amount`. -/
def computeId (env : JSEnv) (date object : String) (amount : JSVal) : String :=
  env.md5hex (date ++ object ++ jsToString env amount)

/-- `POST /accounts/:user/transactions` (lines 138-178). -/
def addTransaction (env : JSEnv) (db : DB) (user : String) (req : TxReq) :
    TxAddResult × DB :=
  match jsGet db user with
  -- lines 141-143: if (!account) return 404
  | none => (.notFound, db)
  | some account =>
    -- lines 145-147: if (!date || !object || !amount) return 400
    if req.date = "" ∨ req.object = "" ∨ ¬ jsTruthy req.amount then
      (.missingParams, db)
    else
      let amount := coerceAmount env req.amount
      -- lines 154-156: if (amount && isNaN(amount)) return 400
      if jsTruthy amount ∧ jsIsNaN amount then (.invalidAmount, db)
      else
        let id := computeId env req.date req.object req.amount
        -- lines 163-165: if (transactions.some(t => t.id === id)) return 409
        if List.any account.transactions (fun t => t.id == id) then
          (.conflict, db)
        else
          -- lines 167-175
          let t : Transaction :=
            { id := id, date := req.date, object := req.object, amount := amount }
          let account9 : Account :=
            { account with
                transactions := account.transactions ++ [t]
                balance := jsAdd account.balance t.amount }
          (.created t, jsSet db user account9)

/-- Result of `DELETE /accounts/:user/transactions/:id` (lines 182-199). -/
inductive TxDelResult where
  | accountNotFound   -- 404 User does not exist
  | txNotFound        -- 404 Transaction does not exist
  | deleted           -- 204
deriving DecidableEq, Repr

/-- HTTP status of a `DELETE /accounts/:user/transactions/:id` result. -/
def TxDelResult.status : TxDelResult → Nat
  | .accountNotFound => 404
  | .txNotFound => 404
  | .deleted => 204

/-- `DELETE /accounts/:user/transactions/:id` (lines 182-199):
`findIndex` on the id, 404 on `-1`, otherwise `splice(index, 1)`.
The balance is not touched. -/
def deleteTransaction (db : DB) (user : String) (tid : String) :
    TxDelResult × DB :=
  match jsGet db user with
  | none => (.accountNotFound, db)
  | some account =>
    match List.findIdx? (fun t => t.id == tid) account.transactions with
    | none => (.txNotFound, db)
    | some i =>
      let account9 : Account :=
        { account with transactions := account.transactions.eraseIdx i }
      (.deleted, jsSet db user account9)

/-- Result of `DELETE /accounts/:user` (lines 124-134). -/
inductive AccDelResult where
  | notFound   -- 404 User does not exist
  | deleted    -- 204
deriving DecidableEq, Repr

/-- `DELETE /accounts/:user` (lines 124-134). -/
def deleteAccount (db : DB) (user : String) : AccDelResult × DB :=
  match jsGet db user with
  | none => (.notFound, db)
  | some _ => (.deleted, jsDelete db user)

/-- `GET /accounts/:user` (lines 113-120): 404 if absent, otherwise the
full account snapshot. -/
def getAccount (db : DB) (user : String) : Option Account :=
  jsGet db user

/-- A concrete environment used to instantiate the abstract builtins in
closed witness statements: an injective stand-in for the md5 hex digest
and a `parseFloat` that parses the two strings the witnesses use. -/
def envW : JSEnv :=
  { md5hex := fun s => "#" ++ s
    parseFloat := fun s => if s = "20" then .num 20 else .nan
    numToStr := fun _ => "" }

/-! ## Helper lemmas -/

/-- Unfolding `jsGet` on a cons cell. -/
theorem jsGet_cons (e : String × Account) (es : DB) (k : String) :
    jsGet (e :: es) k = if (e.1 == k) = true then some e.2 else jsGet es k := by
  by_cases he : (e.1 == k) = true
  · simp [jsGet, List.find?_cons_of_pos, he]
  · simp [jsGet, List.find?_cons_of_neg, he]

/-- Unfolding `jsSet` on a cons cell. -/
theorem jsSet_cons (e : String × Account) (es : DB) (k : String) (a9 : Account) :
    jsSet (e :: es) k a9 =
      (if (e.1 == k) = true then (k, a9) else e) :: jsSet es k a9 := rfl

/-- Looking up the key just overwritten by `jsSet` yields the new
account, provided the key was present. -/
theorem jsGet_jsSet_self (db : DB) (k : String) (a a9 : Account)
    (h : jsGet db k = some a) : jsGet (jsSet db k a9) k = some a9 := by
  induction db with
  | nil => simp [jsGet] at h
  | cons e es ih =>
    rw [jsSet_cons]
    by_cases he : (e.1 == k) = true
    · rw [if_pos he, jsGet_cons]
      simp
    · rw [if_neg he, jsGet_cons, if_neg he]
      rw [jsGet_cons, if_neg he] at h
      exact ih h

/-- `jsSet` on key `k` does not change lookups of other keys. -/
theorem jsGet_jsSet_ne (db : DB) (k k2 : String) (a9 : Account)
    (h : k2 ≠ k) : jsGet (jsSet db k a9) k2 = jsGet db k2 := by
  induction db with
  | nil => rfl
  | cons e es ih =>
    rw [jsSet_cons]
    by_cases he : (e.1 == k) = true
    · rw [if_pos he]
      have hek : e.1 = k := by simpa using he
      have h1 : (k == k2) = false := by simpa using fun hkk => h hkk.symm
      have h2 : (e.1 == k2) = false := by simpa [hek] using fun hkk => h hkk.symm
      rw [jsGet_cons, jsGet_cons]
      simp [h1, h2, ih]
    · rw [if_neg he, jsGet_cons, jsGet_cons]
      by_cases h2 : (e.1 == k2) = true <;> simp [h2, ih]

/-- The dead-guard fact (`server.js` line 154): a JavaScript value is
never simultaneously truthy and `NaN`-like, because `NaN` itself is
falsy. -/
theorem truthy_and_isNaN_impossible (v : JSVal) :
    ¬ (jsTruthy v = true ∧ jsIsNaN v = true) := by
  cases v <;> simp [jsTruthy, jsIsNaN]

/-- Sum of amounts over an appended singleton. -/
theorem sumAmounts_append (ts : List Transaction) (t : Transaction) :
    sumAmounts (ts ++ [t]) = jsAdd (sumAmounts ts) t.amount := by
  simp [sumAmounts, List.foldl_append]

/-- Shape of a successful `POST /accounts/:user/transactions`: with the
account present, all three parameters truthy and the derived id fresh,
the handler stores the coerced-amount transaction at the end of the
list, adds the amount onto the balance and answers 201 with the
transaction. -/
theorem addTransaction_success (env : JSEnv) (db : DB) (user : String)
    (req : TxReq) (acc : Account)
    (hacc : jsGet db user = some acc)
    (hdate : req.date ≠ "") (hobj : req.object ≠ "")
    (hamt : jsTruthy req.amount = true)
    (hfresh : List.any acc.transactions
      (fun t => t.id == computeId env req.date req.object req.amount) = false) :
    addTransaction env db user req =
      (TxAddResult.created
        { id := computeId env req.date req.object req.amount
          date := req.date, object := req.object
          amount := coerceAmount env req.amount },
        jsSet db user
          { acc with
              transactions := acc.transactions ++
                [{ id := computeId env req.date req.object req.amount
                   date := req.date, object := req.object
                   amount := coerceAmount env req.amount }]
              balance := jsAdd acc.balance (coerceAmount env req.amount) }) := by
  unfold addTransaction
  rw [hacc]
  dsimp only
  rw [if_neg (by simp [hdate, hobj, hamt])]
  rw [if_neg (truthy_and_isNaN_impossible _)]
  rw [if_neg (by simp [hfresh])]

/-- Shape of a conflicting `POST /accounts/:user/transactions`: with the
account present, all three parameters truthy and the derived id already
on the account, the handler answers 409 and leaves the database alone. -/
theorem addTransaction_conflict (env : JSEnv) (db : DB) (user : String)
    (req : TxReq) (acc : Account)
    (hacc : jsGet db user = some acc)
    (hdate : req.date ≠ "") (hobj : req.object ≠ "")
    (hamt : jsTruthy req.amount = true)
    (hdup : List.any acc.transactions
      (fun t => t.id == computeId env req.date req.object req.amount) = true) :
    addTransaction env db user req = (TxAddResult.conflict, db) := by
  unfold addTransaction
  rw [hacc]
  dsimp only
  rw [if_neg (by simp [hdate, hobj, hamt])]
  rw [if_neg (truthy_and_isNaN_impossible _)]
  rw [if_pos hdup]

/-- Sample data for closed statements: a one-account database whose
account satisfies the balance-equals-sum invariant. -/
def dbAlice : DB :=
  [("alice",
    { user := "alice", currency := "$", description := "alice\x27s budget"
      balance := .num 0, transactions := [] })]

/-- Sample valid transaction request for closed statements. -/
def reqGift : TxReq :=
  { date := "2021-01-01", object := "Gift", amount := .num 20 }

/-- Sample transaction request whose string amount parses to `NaN`. -/
def reqAbc : TxReq :=
  { date := "2021-01-01", object := "x", amount := .str "abc" }

/-! ## Claims -/

/-- C10: the built-in seed state used by load when the durable file is
missing or unparsable contains the single account `test` with balance
75, whose three seed transactions have amounts 50, -10 and -5, summing
to 35 — so the initial fallback state already has a balance different
from the sum of its transactions' amounts. -/
theorem c10_seed_balance_differs_from_sum :
    List.map Prod.fst seedDB = ["test"] ∧
    ∃ a : Account, jsGet seedDB "test" = some a ∧
      a.balance = JSVal.num 75 ∧
      List.map Transaction.amount a.transactions =
        [JSVal.num 50, JSVal.num (-10), JSVal.num (-5)] ∧
      sumAmounts a.transactions = JSVal.num 35 ∧
      a.balance ≠ sumAmounts a.transactions := by
  refine ⟨rfl, _, rfl, rfl, rfl, ?_, ?_⟩
  · norm_num [sumAmounts, jsAdd, seedAccount]
  · norm_num [sumAmounts, jsAdd, seedAccount]

/-- C1 [counterexample]: after the completed create-account mutation
with requested balance 5, the stored account's balance (5) differs from
the sum of its (empty) transaction list (0), so the balance-equals-sum
invariant does not hold at rest after every completed mutation. -/
theorem c1_cx_create_with_balance_breaks_sum :
    ∃ a : Account,
      createAccount envW []
          { user := "alice", currency := "$", description := "", balance := JSVal.num 5 } =
        (CreateResult.created a, [("alice", a)]) ∧
      jsGet [("alice", a)] "alice" = some a ∧
      a.balance = JSVal.num 5 ∧
      sumAmounts a.transactions = JSVal.num 0 ∧
      a.balance ≠ sumAmounts a.transactions := by
  refine ⟨_, rfl, rfl, rfl, rfl, ?_⟩
  decide

/-- C1 [amended]: the balance-equals-sum invariant is preserved by a
completed successful add-transaction mutation: if the looked-up
account's balance equals the sum of its stored transactions' amounts
beforehand, the stored account's balance equals that sum afterwards.
(Create-account with a truthy requested balance and delete-transaction
do not maintain the equality.) -/
theorem c1_add_preserves_balance_eq_sum (env : JSEnv) (db : DB)
    (user : String) (req : TxReq) (acc : Account) (t : Transaction) (db2 : DB)
    (hacc : jsGet db user = some acc)
    (hinv : acc.balance = sumAmounts acc.transactions)
    (hres : addTransaction env db user req = (TxAddResult.created t, db2)) :
    ∃ acc2 : Account, jsGet db2 user = some acc2 ∧
      acc2.balance = sumAmounts acc2.transactions := by
  unfold addTransaction at hres
  rw [hacc] at hres
  dsimp only at hres
  split_ifs at hres with h1 h2 h3
  · simp at hres
  · simp at hres
  · simp at hres
  · rw [Prod.mk.injEq, TxAddResult.created.injEq] at hres
    obtain ⟨ht, hdb⟩ := hres
    subst hdb
    exact ⟨_, jsGet_jsSet_self db user acc _ hacc,
      by dsimp only; rw [sumAmounts_append, hinv]⟩

/-- C1 [witness]: the amended preservation statement applied to a
concrete database, account and request. -/
theorem c1_add_preserves_balance_eq_sum_witness :
    ∃ acc2 : Account,
      jsGet (addTransaction envW dbAlice "alice" reqGift).2 "alice" = some acc2 ∧
      acc2.balance = sumAmounts acc2.transactions :=
  c1_add_preserves_balance_eq_sum envW dbAlice "alice" reqGift
    { user := "alice", currency := "$", description := "alice\x27s budget"
      balance := .num 0, transactions := [] }
    { id := "#2021-01-01Gift", date := "2021-01-01", object := "Gift"
      amount := .num 20 }
    (addTransaction envW dbAlice "alice" reqGift).2 rfl rfl rfl

/-- C6 [counterexample]: with user `test` already in the seed ledger but
`currency` absent, create-account answers MissingParameter (400), not
Conflict (409) — the missing-parameter check at lines 83-85 runs before
the existence check at lines 87-89, so the Conflict answer is not
independent of the other fields. -/
theorem c6_cx_missing_currency_beats_conflict :
    (jsGet seedDB "test").isSome = true ∧
    createAccount envW seedDB
        { user := "test", currency := "", description := "", balance := JSVal.undef } =
      (CreateResult.missingParams, seedDB) ∧
    CreateResult.missingParams ≠ CreateResult.conflict ∧
    CreateResult.missingParams.status = 400 := by
  refine ⟨rfl, rfl, by decide, rfl⟩

/-- C6 [amended]: for every create-account request whose user key is
already present in the ledger and whose user and currency fields are
both present (truthy), the operation yields Conflict (409) regardless
of the description and balance fields, and the ledger is unchanged.
(When currency is absent, MissingParameter takes precedence.) -/
theorem c6_existing_user_conflict (env : JSEnv) (db : DB) (req : CreateReq)
    (huser : req.user ≠ "") (hcur : req.currency ≠ "")
    (hexists : (jsGet db req.user).isSome = true) :
    createAccount env db req = (CreateResult.conflict, db) ∧
    CreateResult.conflict.status = 409 := by
  constructor
  · unfold createAccount
    rw [if_neg (by simp [huser, hcur]), if_pos hexists]
  · rfl

/-- C6 [witness]: the amended Conflict statement applied to the seed
ledger and a concrete request re-using the user `test`. -/
theorem c6_existing_user_conflict_witness :
    createAccount envW seedDB
        { user := "test", currency := "€", description := "other", balance := JSVal.num 3 } =
      (CreateResult.conflict, seedDB) ∧
    CreateResult.conflict.status = 409 :=
  c6_existing_user_conflict envW seedDB
    { user := "test", currency := "€", description := "other", balance := JSVal.num 3 }
    (by decide) (by decide) rfl

/-- C2 [code_bug evidence]: on the seed ledger, an add-transaction
request on account `test` with the string amount `"abc"` — whose
numeric coercion is `NaN` — is not rejected with InvalidAmount: the
handler answers 201, stores a fourth transaction whose amount is `NaN`,
and the account balance becomes `NaN`. -/
theorem c2_nan_amount_stored_not_rejected :
    envW.parseFloat "abc" = JSNum.nan ∧
    ∃ t : Transaction, ∃ a : Account,
      (addTransaction envW seedDB "test" reqAbc).1 = TxAddResult.created t ∧
      t.amount = JSVal.nan ∧
      (TxAddResult.created t).status = 201 ∧
      TxAddResult.created t ≠ TxAddResult.invalidAmount ∧
      jsGet (addTransaction envW seedDB "test" reqAbc).2 "test" = some a ∧
      a.transactions.length = 4 ∧
      a.balance = JSVal.nan := by
  refine ⟨rfl, _, _, rfl, rfl, rfl, by decide, rfl, rfl, rfl⟩

/-- C9: the InvalidAmount branch of add-transaction is dead code: the
guard at line 154 demands a value that is simultaneously truthy and
`NaN`-like, which no JavaScript value is (`NaN` is falsy); hence no
add-transaction request ever produces the InvalidAmount (400 "Amount
must be a number") answer, and a truthy string amount whose coercion is
`NaN` proceeds to be stored with amount `NaN`. -/
theorem c9_invalid_amount_branch_dead :
    (∀ v : JSVal, ¬ (jsTruthy v = true ∧ jsIsNaN v = true)) ∧
    (∀ (env : JSEnv) (db : DB) (user : String) (req : TxReq),
      (addTransaction env db user req).1 ≠ TxAddResult.invalidAmount) ∧
    (∀ (env : JSEnv) (db : DB) (user : String) (req : TxReq) (acc : Account) (s : String),
      jsGet db user = some acc →
      req.amount = JSVal.str s →
      jsTruthy req.amount = true →
      req.date ≠ "" → req.object ≠ "" →
      env.parseFloat s = JSNum.nan →
      List.any acc.transactions
        (fun t => t.id == computeId env req.date req.object req.amount) = false →
      ∃ db2 : DB,
        addTransaction env db user req =
          (TxAddResult.created
            { id := computeId env req.date req.object req.amount
              date := req.date, object := req.object, amount := JSVal.nan }, db2)) := by
  refine ⟨truthy_and_isNaN_impossible, ?_, ?_⟩
  · intro env db user req
    unfold addTransaction
    cases hdb : jsGet db user with
    | none => simp
    | some acc =>
      dsimp only
      split_ifs with h1 h2 h3
      · simp
      · exact absurd h2 (truthy_and_isNaN_impossible _)
      · simp
      · simp
  · intro env db user req acc s hacc hs htr hdate hobj hpf hfresh
    have hca : coerceAmount env req.amount = JSVal.nan := by
      rw [hs] at htr ⊢
      unfold coerceAmount
      rw [if_pos ⟨htr, by simp [JSVal.isNumber]⟩]
      simp [jsToString, hpf, JSNum.toVal]
    exact ⟨jsSet db user
      { acc with
          transactions := acc.transactions ++
            [{ id := computeId env req.date req.object req.amount
               date := req.date, object := req.object, amount := JSVal.nan }]
          balance := jsAdd acc.balance JSVal.nan },
      by rw [addTransaction_success env db user req acc hacc hdate hobj htr hfresh, hca]⟩

/-- C9 [witness]: the dead-guard statement, the never-InvalidAmount
statement and the NaN-stored statement, each applied to concrete
inputs. -/
theorem c9_invalid_amount_branch_dead_witness :
    (¬ (jsTruthy (JSVal.str "abc") = true ∧ jsIsNaN (JSVal.str "abc") = true)) ∧
    ((addTransaction envW seedDB "test" reqAbc).1 ≠ TxAddResult.invalidAmount) ∧
    (∃ db2 : DB,
      addTransaction envW seedDB "test" reqAbc =
        (TxAddResult.created
          { id := "#2021-01-01xabc", date := "2021-01-01", object := "x"
            amount := JSVal.nan }, db2)) :=
  ⟨c9_invalid_amount_branch_dead.1 (JSVal.str "abc"),
   c9_invalid_amount_branch_dead.2.1 envW seedDB "test" reqAbc,
   c9_invalid_amount_branch_dead.2.2 envW seedDB "test" reqAbc seedAccount
     "abc" rfl rfl (by decide) (by decide) (by decide) rfl rfl⟩

/-- Bridging helper: a pointwise freshness hypothesis gives the `false`
value of the handler's `some`-style duplicate scan. -/
theorem any_id_eq_false (l : List Transaction) (i : String)
    (h : ∀ t ∈ l, t.id ≠ i) : List.any l (fun t => t.id == i) = false := by
  rw [List.any_eq_false]
  intro t ht
  simpa using h t ht

/-- C3: for every existing account and valid (date, object, amount)
request whose derived id is not yet on the account, adding the same
transaction twice stores it once — the second call answers Conflict
(409) and changes neither the database, nor the account's transactions
or balance — and exactly one stored transaction carries the derived
id. -/
theorem c3_duplicate_add_conflict (env : JSEnv) (db : DB) (user : String)
    (req : TxReq) (acc : Account)
    (hacc : jsGet db user = some acc)
    (hdate : req.date ≠ "") (hobj : req.object ≠ "")
    (hamt : jsTruthy req.amount = true)
    (hfresh : ∀ t ∈ acc.transactions,
      t.id ≠ computeId env req.date req.object req.amount) :
    ∃ t : Transaction, ∃ db1 : DB,
      addTransaction env db user req = (TxAddResult.created t, db1) ∧
      addTransaction env db1 user req = (TxAddResult.conflict, db1) ∧
      TxAddResult.conflict.status = 409 ∧
      ∃ acc1 : Account, jsGet db1 user = some acc1 ∧
        (List.filter (fun s => s.id == t.id) acc1.transactions).length = 1 := by
  have h1 := addTransaction_success env db user req acc hacc hdate hobj hamt
    (any_id_eq_false _ _ hfresh)
  refine ⟨_, _, h1, ?_, rfl, _, jsGet_jsSet_self db user acc _ hacc, ?_⟩
  · refine addTransaction_conflict env _ user req _
      (jsGet_jsSet_self db user acc _ hacc) hdate hobj hamt ?_
    simp [List.any_append]
  · dsimp only
    rw [List.filter_append]
    have hnil : List.filter
        (fun s => s.id == computeId env req.date req.object req.amount)
        acc.transactions = [] := by
      rw [List.filter_eq_nil_iff]
      intro a ha
      simpa using hfresh a ha
    rw [hnil]
    simp

/-- C3 [witness]: the double-add statement applied to the seed ledger
and a concrete request. -/
theorem c3_duplicate_add_conflict_witness :
    ∃ t : Transaction, ∃ db1 : DB,
      addTransaction envW seedDB "test" reqGift = (TxAddResult.created t, db1) ∧
      addTransaction envW db1 "test" reqGift = (TxAddResult.conflict, db1) ∧
      TxAddResult.conflict.status = 409 ∧
      ∃ acc1 : Account, jsGet db1 "test" = some acc1 ∧
        (List.filter (fun s => s.id == t.id) acc1.transactions).length = 1 :=
  c3_duplicate_add_conflict envW seedDB "test" reqGift seedAccount rfl
    (by decide) (by decide) (by decide) (by decide)

/-- C5: every successful add-transaction on an existing account with
valid (date, object, amount) appends the new transaction at the end of
the account's sequence (all previously stored transactions unchanged,
in place), sets the balance to the old balance plus the (coerced)
amount, leaves every other account untouched, and answers 201 with the
created transaction. -/
theorem c5_add_appends_and_increments (env : JSEnv) (db : DB) (user : String)
    (req : TxReq) (acc : Account)
    (hacc : jsGet db user = some acc)
    (hdate : req.date ≠ "") (hobj : req.object ≠ "")
    (hamt : jsTruthy req.amount = true)
    (hfresh : ∀ t ∈ acc.transactions,
      t.id ≠ computeId env req.date req.object req.amount) :
    ∃ t : Transaction, ∃ db2 : DB,
      addTransaction env db user req = (TxAddResult.created t, db2) ∧
      t = { id := computeId env req.date req.object req.amount
            date := req.date, object := req.object
            amount := coerceAmount env req.amount } ∧
      (TxAddResult.created t).status = 201 ∧
      jsGet db2 user = some
        { acc with
            transactions := acc.transactions ++ [t]
            balance := jsAdd acc.balance t.amount } ∧
      (∀ k : String, k ≠ user → jsGet db2 k = jsGet db k) := by
  have h1 := addTransaction_success env db user req acc hacc hdate hobj hamt
    (any_id_eq_false _ _ hfresh)
  exact ⟨_, _, h1, rfl, rfl,
    jsGet_jsSet_self db user acc _ hacc,
    fun k hk => jsGet_jsSet_ne db user k _ hk⟩

/-- C5 [witness]: the success statement applied to the seed ledger and
a concrete request. -/
theorem c5_add_appends_and_increments_witness :
    ∃ t : Transaction, ∃ db2 : DB,
      addTransaction envW seedDB "test" reqGift = (TxAddResult.created t, db2) ∧
      t = { id := computeId envW reqGift.date reqGift.object reqGift.amount
            date := reqGift.date, object := reqGift.object
            amount := coerceAmount envW reqGift.amount } ∧
      (TxAddResult.created t).status = 201 ∧
      jsGet db2 "test" = some
        { seedAccount with
            transactions := seedAccount.transactions ++ [t]
            balance := jsAdd seedAccount.balance t.amount } ∧
      (∀ k : String, k ≠ "test" → jsGet db2 k = jsGet seedDB k) :=
  c5_add_appends_and_increments envW seedDB "test" reqGift seedAccount rfl
    (by decide) (by decide) (by decide) (by decide)

/-- Whenever add-transaction answers `created t`, the id of `t` is the
hash of `date + object + amount` computed from the raw request fields. -/
theorem addTransaction_created_id (env : JSEnv) (db : DB) (user : String)
    (req : TxReq) (t : Transaction)
    (h : (addTransaction env db user req).1 = TxAddResult.created t) :
    t.id = computeId env req.date req.object req.amount := by
  unfold addTransaction at h
  cases hdb : jsGet db user with
  | none =>
    rw [hdb] at h
    simp at h
  | some acc =>
    rw [hdb] at h
    dsimp only at h
    split_ifs at h with h1 h2 h3
    simp at h
    rw [← h]

/-- C8: the transaction id is a deterministic function of the request's
date, object and pre-coercion amount: it is the (hex) digest of the
string concatenation date + object + amount in that order; hence two
add-transaction calls supplying identical (date, object, amount)
request fields derive the same id. -/
theorem c8_id_is_hash_of_request_fields (env : JSEnv) (db : DB) (user : String)
    (req : TxReq) (t : Transaction)
    (h : (addTransaction env db user req).1 = TxAddResult.created t) :
    t.id = env.md5hex (req.date ++ req.object ++ jsToString env req.amount) ∧
    ∀ (db2 : DB) (user2 : String) (req2 : TxReq) (t2 : Transaction),
      (addTransaction env db2 user2 req2).1 = TxAddResult.created t2 →
      req2.date = req.date → req2.object = req.object → req2.amount = req.amount →
      t2.id = t.id := by
  have h0 := addTransaction_created_id env db user req t h
  refine ⟨h0, ?_⟩
  intro db2 user2 req2 t2 h2 e1 e2 e3
  rw [addTransaction_created_id env db2 user2 req2 t2 h2, h0]
  unfold computeId
  rw [e1, e2, e3]

/-- C8 [witness]: the id-derivation statement applied to a concrete
successful call on the seed ledger. -/
theorem c8_id_is_hash_of_request_fields_witness :
    ({ id := "#2021-01-01Gift", date := "2021-01-01", object := "Gift"
       amount := JSVal.num 20 } : Transaction).id =
      envW.md5hex (reqGift.date ++ reqGift.object ++ jsToString envW reqGift.amount) ∧
    ∀ (db2 : DB) (user2 : String) (req2 : TxReq) (t2 : Transaction),
      (addTransaction envW db2 user2 req2).1 = TxAddResult.created t2 →
      req2.date = reqGift.date → req2.object = reqGift.object →
      req2.amount = reqGift.amount →
      t2.id = ({ id := "#2021-01-01Gift", date := "2021-01-01", object := "Gift"
                 amount := JSVal.num 20 } : Transaction).id :=
  c8_id_is_hash_of_request_fields envW seedDB "test" reqGift
    { id := "#2021-01-01Gift", date := "2021-01-01", object := "Gift"
      amount := JSVal.num 20 } rfl

/-- C4: for every account and transaction id present on it, delete-
transaction removes exactly the first transaction bearing that id
(splice at the `findIndex` position), leaves the account's balance
unchanged — it is not decremented — and signals success with status
204. -/
theorem c4_delete_keeps_balance (db : DB) (user tid : String) (acc : Account)
    (hacc : jsGet db user = some acc)
    (htid : tid ∈ List.map Transaction.id acc.transactions) :
    ∃ i : Nat, ∃ hi : i < acc.transactions.length,
      (acc.transactions.get ⟨i, hi⟩).id = tid ∧
      (∀ j : Nat, ∀ hj : j < acc.transactions.length, j < i →
        (acc.transactions.get ⟨j, hj⟩).id ≠ tid) ∧
      deleteTransaction db user tid =
        (TxDelResult.deleted,
          jsSet db user { acc with transactions := acc.transactions.eraseIdx i }) ∧
      TxDelResult.deleted.status = 204 ∧
      ∃ acc2 : Account,
        jsGet (jsSet db user
          { acc with transactions := acc.transactions.eraseIdx i }) user = some acc2 ∧
        acc2.balance = acc.balance ∧
        acc2.transactions =
          List.take i acc.transactions ++ List.drop (i + 1) acc.transactions := by
  have hex : List.findIdx? (fun t => t.id == tid) acc.transactions ≠ none := by
    rw [Ne, List.findIdx?_eq_none_iff]
    intro hall
    obtain ⟨t, ht, hidt⟩ := List.mem_map.mp htid
    have hf := hall t ht
    simp [hidt] at hf
  obtain ⟨i, hidx⟩ := Option.ne_none_iff_exists'.mp hex
  obtain ⟨hi, hp, hmin⟩ := List.findIdx?_eq_some_iff_getElem.mp hidx
  refine ⟨i, hi, by simpa using hp, ?_, ?_, rfl, ?_⟩
  · intro j hj hji
    have hm := hmin j hji
    simpa using hm
  · unfold deleteTransaction
    rw [hacc]
    dsimp only
    rw [hidx]
  · exact ⟨_, jsGet_jsSet_self db user acc _ hacc, rfl,
      List.eraseIdx_eq_take_drop_succ _ _⟩

/-- C4 [witness]: deleting seed transaction `2` from the seed ledger. -/
theorem c4_delete_keeps_balance_witness :
    ∃ i : Nat, ∃ hi : i < seedAccount.transactions.length,
      (seedAccount.transactions.get ⟨i, hi⟩).id = "2" ∧
      (∀ j : Nat, ∀ hj : j < seedAccount.transactions.length, j < i →
        (seedAccount.transactions.get ⟨j, hj⟩).id ≠ "2") ∧
      deleteTransaction seedDB "test" "2" =
        (TxDelResult.deleted,
          jsSet seedDB "test"
            { seedAccount with transactions := seedAccount.transactions.eraseIdx i }) ∧
      TxDelResult.deleted.status = 204 ∧
      ∃ acc2 : Account,
        jsGet (jsSet seedDB "test"
          { seedAccount with
              transactions := seedAccount.transactions.eraseIdx i }) "test" = some acc2 ∧
        acc2.balance = seedAccount.balance ∧
        acc2.transactions =
          List.take i seedAccount.transactions ++
            List.drop (i + 1) seedAccount.transactions :=
  c4_delete_keeps_balance seedDB "test" "2" seedAccount rfl (by decide)

/-- C7: deleting a transaction id that is not on an existing account
answers NotFound (404) and leaves the whole database — in particular
the account's transactions and balance — unchanged. -/
theorem c7_delete_missing_tx_not_found (db : DB) (user tid : String)
    (acc : Account)
    (hacc : jsGet db user = some acc)
    (hno : tid ∉ List.map Transaction.id acc.transactions) :
    deleteTransaction db user tid = (TxDelResult.txNotFound, db) ∧
    TxDelResult.txNotFound.status = 404 := by
  have hidx : List.findIdx? (fun t => t.id == tid) acc.transactions = none := by
    rw [List.findIdx?_eq_none_iff]
    intro t ht
    simp only [beq_eq_false_iff_ne, ne_eq]
    intro he
    exact hno (List.mem_map.mpr ⟨t, ht, he⟩)
  refine ⟨?_, rfl⟩
  unfold deleteTransaction
  rw [hacc]
  dsimp only
  rw [hidx]

/-- C7 [witness]: deleting the absent id `zzz` from the seed ledger. -/
theorem c7_delete_missing_tx_not_found_witness :
    deleteTransaction seedDB "test" "zzz" = (TxDelResult.txNotFound, seedDB) ∧
    TxDelResult.txNotFound.status = 404 :=
  c7_delete_missing_tx_not_found seedDB "test" "zzz" seedAccount rfl (by decide)
